import Mathlib

/-!
# Leveled logger and rotating file writer

A shallow embedding of `defaultlogger.go`, `defaultloggerfactory.go` and
`defaultwriter.go`.

* The scoped logger is embedded over an explicit `World`: a store of
  `*log.Logger` objects (the five handles of a `DefaultLogger` are addresses
  into it, or nil), the list of `Output` calls made so far, and the reports
  made through the package-level `Warnf`.
* The rotating writer is embedded over an arbitrary operating system `Sys σ`:
  every call that leaves the package (file system, clock, time parsing) is a
  field of `Sys`, threaded through an abstract state `σ`.

The mutexes are not modelled: every function below is one critical section
executed from start to end.
-/

namespace Log

/-! ## Imported packages -/

/-- Modelled from the spec: the constants of the imported package `level`, whose
declarations are not among the sources. `Level` is an unsigned integer of
`bits` bits; `TRACE`, `INFO`, `WARN`, `ERROR` are severity bits, `DEBUG` is the
mask of all debug sub-level bits and `DEBUG0` the first of them. -/
structure LevelPkg where
  bits : Nat
  TRACE : Nat
  DEBUG : Nat
  DEBUG0 : Nat
  INFO : Nat
  WARN : Nat
  ERROR : Nat

/-- Modelled from the spec: one layout of the `level` constants following §3:
a 32-bit set with `TRACE` the lowest bit, twenty-eight debug sub-levels
`DEBUG0 << n`, then `INFO`, `WARN`, `ERROR` in increasing significance. -/
def level32 : LevelPkg where
  bits := 32
  TRACE := 0x00000001
  DEBUG := 0x1FFFFFFE
  DEBUG0 := 0x00000002
  INFO := 0x20000000
  WARN := 0x40000000
  ERROR := 0x80000000

/-- The Go expression `level.DEBUG0 << n` on a `Level` of `bits` bits. -/
def LevelPkg.debugN (L : LevelPkg) (n : Nat) : Nat :=
  (L.DEBUG0 <<< n) % 2 ^ L.bits

/-- Modelled from the spec: `Level.Get` of the imported package `level`, called as
`me.level.Get()`; it reads the mask it is called on (§3: a mask enables a record
of level `L` iff `mask & L != 0`). -/
def Level.Get (n : Nat) : Nat := n

/-- Go `DEFAULT_DEPTH = this frame + wrapper func + caller`. -/
def DEFAULT_DEPTH : Int := 3

/-- Go `log.LstdFlags|log.Lshortfile`. -/
def stdFlags : Nat := 3 ||| 16

/-- The identity of the writer `os.Stdout`; every `io.Writer` is a number. -/
def osStdout : Nat := 0

/-! ## The store of `*log.Logger` objects -/

/-- A `log.Logger` object: its prefix, the identity of its writer, its flags. -/
structure GoLogger where
  pfx : String
  out : Nat
  flag : Nat
deriving DecidableEq, Repr

/-- One call of `(*log.Logger).Output`: the handle it was made on, the writer,
prefix and flags of the handle at that moment, the call depth, the message,
and whether the writer accepted the line. -/
structure OutputCall where
  handle : Nat
  out : Nat
  pfx : String
  flag : Nat
  calldepth : Int
  s : String
  ok : Bool
deriving DecidableEq, Repr

/-- The world the logger runs in. `fails k` is the error, if any, with which the
writer answers the `k`-th `Output` call. `reports` collects the calls of the
package-level `Warnf`. -/
structure World where
  loggers : Nat → GoLogger
  next : Nat
  fails : Nat → Option String
  calls : List OutputCall
  reports : List (String × List String)

/-- Go `log.New(out, prefix, flag)`: allocates a fresh logger object. -/
def logNew (out : Nat) (p : String) (flag : Nat) (w : World) : Nat × World :=
  (w.next,
   { w with loggers := Function.update w.loggers w.next ⟨p, out, flag⟩, next := w.next + 1 })

/-- Go `l.Output(calldepth, s)`: one line handed to the writer of `l`; returns the
writer's error. -/
def Output (h : Nat) (calldepth : Int) (s : String) (w : World) : Option String × World :=
  let l := w.loggers h
  let err := w.fails w.calls.length
  (err, { w with calls := w.calls ++ [⟨h, l.out, l.pfx, l.flag, calldepth, s, err.isNone⟩] })

/-- Go `l.SetPrefix(p)`. -/
def SetPrefix (h : Nat) (p : String) (w : World) : World :=
  { w with loggers := Function.update w.loggers h { w.loggers h with pfx := p } }

/-- Go `l.Writer()`. -/
def Writer (h : Nat) (w : World) : Nat := (w.loggers h).out

/-- Modelled from the spec: the package-level `Warnf`, declared outside the
sources, which reports through the process-wide default logger; the report is
recorded, it touches no handle of the logger that makes it. -/
def Warnf (format : String) (args : List String) (w : World) : World :=
  { w with reports := w.reports ++ [(format, args)] }

/-! ## `defaultlogger.go` -/

/-- Go `DefaultLogger`: a nil handle is `none`. -/
structure DefaultLogger where
  level : Nat
  scope : String
  calldepth : Int
  trace : Option Nat
  debug : Option Nat
  info : Option Nat
  warn : Option Nat
  error : Option Nat
deriving DecidableEq, Repr

/-- Go `new(DefaultLogger)`. -/
def DefaultLogger.new : DefaultLogger := ⟨0, "", 0, none, none, none, none, none⟩

def DefaultLogger.Init (me : DefaultLogger) (n : Nat) (scope : String) (calldepth : Int) :
    DefaultLogger :=
  { me with level := n, scope := scope, calldepth := calldepth }

def DefaultLogger.WithTrace (L : LevelPkg) (me : DefaultLogger) (logger : Option Nat) :
    DefaultLogger :=
  { me with level := me.level ||| L.TRACE, trace := logger }

def DefaultLogger.WithDebug (me : DefaultLogger) (logger : Option Nat) : DefaultLogger :=
  { me with debug := logger }

def DefaultLogger.WithInfo (me : DefaultLogger) (logger : Option Nat) : DefaultLogger :=
  { me with info := logger }

def DefaultLogger.WithWarn (me : DefaultLogger) (logger : Option Nat) : DefaultLogger :=
  { me with warn := logger }

def DefaultLogger.WithError (me : DefaultLogger) (logger : Option Nat) : DefaultLogger :=
  { me with error := logger }

def getPrefix (L : LevelPkg) (n : Nat) (scope : String) : String :=
  if n ≥ L.ERROR then "[ERROR] " ++ scope ++ " "
  else if n ≥ L.WARN then "[WARN ] " ++ scope ++ " "
  else if n ≥ L.INFO then "[INFO ] " ++ scope ++ " "
  else if n &&& L.DEBUG ≠ 0 then "[DEBUG] " ++ scope ++ " "
  else if n &&& L.TRACE ≠ 0 then "[TRACE] " ++ scope ++ " "
  else scope ++ " "

/-- Go `me.log(logger, n, s)`; `none` is a nil-pointer panic. -/
def DefaultLogger.log (L : LevelPkg) (me : DefaultLogger) (logger : Option Nat) (n : Nat)
    (s : String) (w : World) : Option World :=
  match logger with
  | none => none
  | some h =>
    match Output h me.calldepth s w with
    | (some err, w1) => some (Warnf "Failed to log: %s" [err] w1)
    | (none, w1) =>
      match me.trace with
      | none => none
      | some t =>
        if Writer h w1 ≠ Writer t w1 ∧ (Level.Get me.level &&& L.TRACE) ≠ 0 then
          some (Output t me.calldepth s (SetPrefix t (getPrefix L n me.scope) w1)).2
        else some w1

/-- Go `me.logf(logger, n, format, args...)`, with `fmt.Sprintf` a parameter. -/
def DefaultLogger.logf (Sprintf : String → List String → String) (L : LevelPkg)
    (me : DefaultLogger) (logger : Option Nat) (n : Nat) (format : String)
    (args : List String) (w : World) : Option World :=
  let s := Sprintf format args
  match logger with
  | none => none
  | some h =>
    match Output h me.calldepth s w with
    | (some err, w1) => some (Warnf "Failed to log: %s" [err] w1)
    | (none, w1) =>
      match me.trace with
      | none => none
      | some t =>
        if Writer h w1 ≠ Writer t w1 ∧ (Level.Get me.level &&& L.TRACE) ≠ 0 then
          some (Output t me.calldepth s (SetPrefix t (getPrefix L n me.scope) w1)).2
        else some w1

def DefaultLogger.Trace (L : LevelPkg) (me : DefaultLogger) (s : String) (w : World) :
    Option World :=
  if (Level.Get me.level &&& L.TRACE) ≠ 0 then me.log L me.trace L.TRACE s w else some w

def DefaultLogger.Tracef (Sprintf : String → List String → String) (L : LevelPkg)
    (me : DefaultLogger) (format : String) (args : List String) (w : World) : Option World :=
  if (Level.Get me.level &&& L.TRACE) ≠ 0 then me.logf Sprintf L me.trace L.TRACE format args w
  else some w

def DefaultLogger.Debug (L : LevelPkg) (me : DefaultLogger) (n : Nat) (s : String)
    (w : World) : Option World :=
  if (Level.Get me.level &&& L.DEBUG) ≤ L.debugN n then me.log L me.debug (L.debugN n) s w
  else some w

def DefaultLogger.Debugf (Sprintf : String → List String → String) (L : LevelPkg)
    (me : DefaultLogger) (n : Nat) (format : String) (args : List String) (w : World) :
    Option World :=
  if (Level.Get me.level &&& L.DEBUG) ≤ L.debugN n then
    me.logf Sprintf L me.debug (L.debugN n) format args w
  else some w

def DefaultLogger.Info (L : LevelPkg) (me : DefaultLogger) (s : String) (w : World) :
    Option World :=
  if (Level.Get me.level &&& L.INFO) ≠ 0 then me.log L me.info L.INFO s w else some w

def DefaultLogger.Infof (Sprintf : String → List String → String) (L : LevelPkg)
    (me : DefaultLogger) (format : String) (args : List String) (w : World) : Option World :=
  if (Level.Get me.level &&& L.INFO) ≠ 0 then me.logf Sprintf L me.info L.INFO format args w
  else some w

def DefaultLogger.Warn (L : LevelPkg) (me : DefaultLogger) (s : String) (w : World) :
    Option World :=
  if (Level.Get me.level &&& L.WARN) ≠ 0 then me.log L me.warn L.WARN s w else some w

def DefaultLogger.Warnf (Sprintf : String → List String → String) (L : LevelPkg)
    (me : DefaultLogger) (format : String) (args : List String) (w : World) : Option World :=
  if (Level.Get me.level &&& L.WARN) ≠ 0 then me.logf Sprintf L me.warn L.WARN format args w
  else some w

def DefaultLogger.Error (L : LevelPkg) (me : DefaultLogger) (s : String) (w : World) :
    Option World :=
  if (Level.Get me.level &&& L.ERROR) ≠ 0 then me.log L me.error L.ERROR s w else some w

def DefaultLogger.Errorf (Sprintf : String → List String → String) (L : LevelPkg)
    (me : DefaultLogger) (format : String) (args : List String) (w : World) : Option World :=
  if (Level.Get me.level &&& L.ERROR) ≠ 0 then me.logf Sprintf L me.error L.ERROR format args w
  else some w

/-- Go `NewDefaultLogger(out, n, scope, calldepth)`: the five `log.New` calls are
made in the order of the chain. -/
def NewDefaultLogger (L : LevelPkg) (out : Nat) (n : Nat) (scope : String) (calldepth : Int)
    (w : World) : DefaultLogger × World :=
  let me0 := DefaultLogger.new.Init n scope calldepth
  let (t, w1) := logNew osStdout (getPrefix L L.TRACE scope) stdFlags w
  let me1 := me0.WithTrace L (some t)
  let (d, w2) := logNew out (getPrefix L L.DEBUG scope) stdFlags w1
  let me2 := me1.WithDebug (some d)
  let (i, w3) := logNew out (getPrefix L L.INFO scope) stdFlags w2
  let me3 := me2.WithInfo (some i)
  let (wn, w4) := logNew out (getPrefix L L.WARN scope) stdFlags w3
  let me4 := me3.WithWarn (some wn)
  let (e, w5) := logNew out (getPrefix L L.ERROR scope) stdFlags w4
  (me4.WithError (some e), w5)

/-! ## `defaultloggerfactory.go` -/

structure DefaultLoggerFactory where
  out : Nat
  level : Nat
deriving DecidableEq, Repr

def DefaultLoggerFactory.Init (me : DefaultLoggerFactory) (out : Nat) (n : Nat) :
    DefaultLoggerFactory :=
  { me with out := out, level := n }

/-- Go `me.NewLogger(scope)`, with `strings.ToUpper` a parameter. -/
def DefaultLoggerFactory.NewLogger (ToUpper : String → String) (L : LevelPkg)
    (me : DefaultLoggerFactory) (scope : String) (w : World) : DefaultLogger × World :=
  NewDefaultLogger L me.out me.level (ToUpper scope) DEFAULT_DEPTH w

/-! ## Observations on the world -/

/-- The `Output` calls made between `w` and a later world `w'`. -/
def newCalls (w w' : World) : List OutputCall := w'.calls.drop w.calls.length

/-- Some call made between `w` and `w'` handed message `s` to handle `h`. -/
def wrote (h : Nat) (s : String) (w w' : World) : Bool :=
  (newCalls w w').any fun c => c.handle == h && c.s == s

/-- The contract of a gated call with result `r` from world `w`: it returns, a
record `s` reaches handle `h` exactly when `gate` holds, and with the gate
closed the world is left as it was. -/
def Gated (r : Option World) (w : World) (h : Nat) (s : String) (gate : Prop) : Prop :=
  ∃ w', r = some w' ∧ (wrote h s w w' = true ↔ gate) ∧ (¬ gate → w' = w)

/-! ## `defaultwriter.go` -/

def SCHEDULE_DAILY : String := "daily"

def SCHEDULE_DURATION : String := "duration"

/-- Go `Rotation.Schedule`; the field `Type` is spelled `Typ`. -/
structure Schedule where
  Typ : String
  Duration : String
deriving DecidableEq, Repr

structure Rotation where
  MaxSize : Int
  Schedule : Schedule
  History : Int
deriving DecidableEq, Repr

structure DefaultWriterConstraints where
  Directory : String
  FileName : String
  Level : String
  Rotation : Rotation
deriving DecidableEq, Repr

/-- Go `DefaultWriter`: `fd` is nil or a file handle, `ticker` is nil or a ticker
with the given period in nanoseconds. -/
structure DefaultWriter where
  constraints : DefaultWriterConstraints
  files : List String
  fd : Option Nat
  ticker : Option Int
  size : Int
deriving DecidableEq, Repr

/-- An `os.DirEntry`: `IsDir()` and the outcome of `Info()`, an error or the
name of the file. -/
structure DirEntry where
  IsDir : Bool
  Info : Except String String

/-- Everything the writer calls outside the package, over a system state `σ`.
Instants are nanoseconds; an error is its message. `Errorf`, `Warnf` and
`Debugf` are the package-level reporting functions, declared outside the
sources. -/
structure Sys (σ : Type) where
  MkdirAll : String → σ → Option String × σ
  ReadDir : String → σ → Except String (List DirEntry) × σ
  Remove : String → σ → Option String × σ
  OpenFile : String → σ → Except String Nat × σ
  Write : Nat → List UInt8 → σ → (Int × Option String) × σ
  Close : Nat → σ → σ
  Now : σ → Int × σ
  Format : Int → String → String
  ParseInLocation : String → String → Except String Int
  ParseDuration : String → Except String Int
  Errorf : String → List String → σ → σ
  Warnf : String → List String → σ → σ
  Debugf : Nat → String → List String → σ → σ

/-- A sum of `int64` values, wrapped to 64 bits. -/
def wrap64 (x : Int) : Int := (x + 2 ^ 63) % 2 ^ 64 - 2 ^ 63

/-- Go `24 * time.Hour`, in nanoseconds. -/
def day : Int := 24 * 3600 * 1000000000

/-- Go `t.Sub(u)`: the difference as a `time.Duration`, saturating at the ends of
`int64`. -/
def timeSub (t u : Int) : Int :=
  if t - u > 2 ^ 63 - 1 then 2 ^ 63 - 1
  else if t - u < -(2 ^ 63) then -(2 ^ 63)
  else t - u

/-- The body of `for _, entry := range arr` in `readdir`. -/
def readdirLoop {σ : Type} (sys : Sys σ) : List DirEntry → List String → σ → List String × σ
  | [], files, st => (files, st)
  | entry :: arr, files, st =>
    if entry.IsDir then readdirLoop sys arr files st
    else
      match entry.Info with
      | .error err => readdirLoop sys arr files (sys.Warnf "Failed to get file info: %v" [err] st)
      | .ok name => readdirLoop sys arr (files ++ [name]) st

def DefaultWriter.readdir {σ : Type} (sys : Sys σ) (me : DefaultWriter) (st : σ) :
    Option String × DefaultWriter × σ :=
  match sys.ReadDir me.constraints.Directory st with
  | (.error err, st1) => (some err, me, sys.Errorf "Failed to ReadDir: %v" [err] st1)
  | (.ok arr, st1) =>
    let r := readdirLoop sys arr me.files st1
    (none, { me with files := List.insertionSort (fun a b : String => a ≤ b) r.1 }, r.2)

/-- The loop `for len(me.files) >= me.constraints.Rotation.History`, entered
with `History > 0`. -/
def removeHistory {σ : Type} (sys : Sys σ) (directory : String) (history : Int) :
    List String → σ → List String × σ
  | [], st => ([], st)
  | name :: files, st =>
    if ((name :: files).length : Int) ≥ history then
      match sys.Remove (directory ++ name) st with
      | (some err, st1) =>
        removeHistory sys directory history files (sys.Errorf "Failed to remove log: %s" [err] st1)
      | (none, st1) => removeHistory sys directory history files st1
    else (name :: files, st)

/-- The end of `rotate`: `if delay > 0 { ... }; return nil`. -/
def DefaultWriter.arm {σ : Type} (sys : Sys σ) (me : DefaultWriter) (delay : Int) (st : σ) :
    Option String × DefaultWriter × σ :=
  if delay > 0 then
    (none, { me with ticker := some delay },
      sys.Debugf 0 "About to rotate logger: delay=%dns" [toString delay] st)
  else (none, me, st)

/-- The `switch me.constraints.Rotation.Schedule.Type` of `rotate` and what
follows it; `now` is the instant read before the file was created. -/
def DefaultWriter.schedule {σ : Type} (sys : Sys σ) (me : DefaultWriter) (now : Int) (st : σ) :
    Option String × DefaultWriter × σ :=
  if me.constraints.Rotation.Schedule.Typ = SCHEDULE_DAILY then
    match sys.ParseInLocation "2006-01-02 15:04:05"
        (sys.Format now "2006-01-02 " ++ me.constraints.Rotation.Schedule.Duration) with
    | .error err => (some err, me, sys.Errorf "Failed to parse time: %s" [err] st)
    | .ok t =>
      let t1 := if now > t then t + day else t
      let r := sys.Now st
      me.arm sys (timeSub t1 r.1) r.2
  else if me.constraints.Rotation.Schedule.Typ = SCHEDULE_DURATION then
    match sys.ParseDuration me.constraints.Rotation.Schedule.Duration with
    | .error err => (some err, me, sys.Errorf "Failed to parse duration: %s" [err] st)
    | .ok d => me.arm sys d st
  else me.arm sys 0 st

/-- The first two blocks of `rotate`, "Close current file." and "Remove history
files.": the writer and the system just before the new file is created. -/
def DefaultWriter.prune {σ : Type} (sys : Sys σ) (me : DefaultWriter) (st : σ) :
    DefaultWriter × σ :=
  let st1 := match me.fd with
    | some f => sys.Close f st
    | none => st
  if me.constraints.Rotation.History > 0 then
    let h := removeHistory sys me.constraints.Directory me.constraints.Rotation.History
      me.files st1
    ({ me with files := h.1 }, h.2)
  else (me, st1)

/-- The head of the block "Create a new file.": the instant read, the name
formatted from it and the outcome of `utils.OpenFile`. -/
def DefaultWriter.create {σ : Type} (sys : Sys σ) (me : DefaultWriter) (st : σ) :
    (Int × String × Except String Nat) × σ :=
  let n := sys.Now st
  let name := sys.Format n.1 me.constraints.FileName
  let r := sys.OpenFile (me.constraints.Directory ++ name) n.2
  ((n.1, name, r.1), r.2)

/-- Go `me.rotate()`: returns the error, the writer and the system afterwards. -/
def DefaultWriter.rotate {σ : Type} (sys : Sys σ) (me : DefaultWriter) (st : σ) :
    Option String × DefaultWriter × σ :=
  let p := me.prune sys st
  match p.1.create sys p.2 with
  | ((_, _, .error err), st2) => (some err, p.1, sys.Errorf "Failed to create log: %s" [err] st2)
  | ((now, name, .ok f), st2) =>
    let me2 := { p.1 with files := p.1.files ++ [name], fd := some f, size := 0 }
    let st3 := sys.Debugf 0 "New log: file=%s" [me.constraints.Directory ++ name] st2
    DefaultWriter.schedule sys { me2 with ticker := none } now st3

/-- Runs `n` calls of `rotate` in a row, stopping at the first that fails. -/
def rotateN {σ : Type} (sys : Sys σ) : Nat → DefaultWriter → σ → Option String × DefaultWriter × σ
  | 0, me, st => (none, me, st)
  | n + 1, me, st =>
    match me.rotate sys st with
    | (some err, me1, st1) => (some err, me1, st1)
    | (none, me1, st1) => rotateN sys n me1 st1

/-- Go `me.Write(p)`: the pair returned, the writer and the system afterwards;
`none` is the nil-pointer panic of a writer that has no file. -/
def DefaultWriter.Write {σ : Type} (sys : Sys σ) (me : DefaultWriter) (p : List UInt8) (st : σ) :
    Option ((Int × Option String) × DefaultWriter × σ) :=
  let append := fun (me1 : DefaultWriter) (st1 : σ) =>
    match me1.fd with
    | none => none
    | some f =>
      match sys.Write f p st1 with
      | ((n, some err), st2) => some ((n, some err), me1, st2)
      | ((n, none), st2) => some ((n, none), { me1 with size := wrap64 (me1.size + n) }, st2)
  if me.constraints.Rotation.MaxSize > 0 ∧
      wrap64 (me.size + (p.length : Int)) ≥ me.constraints.Rotation.MaxSize then
    match me.rotate sys st with
    | (some err, me1, st1) => some ((0, some err), me1, sys.Errorf "Failed to rotate log: %s" [err] st1)
    | (none, me1, st1) => append me1 st1
  else append me st

/-- Go `new(DefaultWriter)`. -/
def DefaultWriter.new : DefaultWriter :=
  ⟨⟨"", "", "", ⟨0, ⟨"", ""⟩, 0⟩⟩, [], none, none, 0⟩

/-- Go `me.Init(constraints)`: `.error err` is `panic(err)`. -/
def DefaultWriter.Init {σ : Type} (sys : Sys σ) (me : DefaultWriter)
    (constraints : DefaultWriterConstraints) (st : σ) : Except String (DefaultWriter × σ) :=
  let me0 := { me with constraints := constraints }
  match sys.MkdirAll constraints.Directory st with
  | (some err, _) => .error err
  | (none, st1) =>
    match me0.readdir sys st1 with
    | (some err, _, _) => .error err
    | (none, me1, st2) =>
      match me1.rotate sys st2 with
      | (some err, _, _) => .error err
      | (none, me2, st3) => .ok (me2, st3)

/-- Go `me.wait()`, run when the ticker fires. -/
def DefaultWriter.wait {σ : Type} (sys : Sys σ) (me : DefaultWriter) (st : σ) :
    DefaultWriter × σ :=
  match me.rotate sys st with
  | (some err, me1, st1) => (me1, sys.Errorf "Failed to rotate log: %s" [err] st1)
  | (none, me1, st1) => (me1, st1)

/-! ## A system in memory

A concrete `Sys`, used to run the writer on explicit inputs. -/

/-- The state of the system in memory: a clock that advances by `tick` at each
reading, the regular files (path and length in bytes), the paths of the file
handles opened so far (handle `k` is the `k`-th), the handles closed, the
outcomes of the coming `OpenFile` calls (`true` fails, none left succeeds), and
the formats of the reports made. -/
structure Mem where
  clock : Nat
  tick : Nat
  files : List (String × Nat)
  fds : List String
  closed : List Nat
  openFails : List Bool
  reports : List String
deriving DecidableEq, Repr

/-- Adds `n` bytes to the file at `path`. -/
def Mem.grow (path : String) (n : Nat) : List (String × Nat) → List (String × Nat)
  | [] => []
  | (q, k) :: fs => if q = path then (q, k + n) :: fs else (q, k) :: Mem.grow path n fs

/-- The system in memory; `today` is what the daily time of day parses to and
`interval` what the duration parses to, `none` when malformed. -/
def memSys (today interval : Option Int) : Sys Mem where
  MkdirAll := fun _ st => (none, st)
  ReadDir := fun directory st =>
    (.ok (((st.files.map Prod.fst).filter fun q => directory.data.isPrefixOf q.data).map
      fun q => ⟨false, .ok ⟨q.data.drop directory.data.length⟩⟩), st)
  Remove := fun path st =>
    if path ∈ st.files.map Prod.fst then
      (none, { st with files := st.files.filter fun f => f.1 ≠ path })
    else (some "no such file or directory", st)
  OpenFile := fun path st =>
    match st.openFails with
    | true :: rest => (.error "permission denied", { st with openFails := rest })
    | _ =>
      (.ok st.fds.length,
        { st with files := (st.files.filter fun f => f.1 ≠ path) ++ [(path, 0)],
                  fds := st.fds ++ [path], openFails := st.openFails.tail })
  Write := fun f p st =>
    match st.fds.get? f with
    | some path =>
      if f ∈ st.closed then ((0, some "file already closed"), st)
      else ((p.length, none), { st with files := Mem.grow path p.length st.files })
    | none => ((0, some "invalid argument"), st)
  Close := fun f st => { st with closed := st.closed ++ [f] }
  Now := fun st => (st.clock, { st with clock := st.clock + st.tick })
  Format := fun t layout => layout ++ toString t
  ParseInLocation := fun _ _ =>
    match today with
    | some t => .ok t
    | none => .error "parsing time: cannot parse"
  ParseDuration := fun _ =>
    match interval with
    | some d => .ok d
    | none => .error "time: invalid duration"
  Errorf := fun format _ st => { st with reports := st.reports ++ [format] }
  Warnf := fun format _ st => { st with reports := st.reports ++ [format] }
  Debugf := fun _ format _ st => { st with reports := st.reports ++ [format] }

/-- An empty directory, a clock at instant 1 advancing by 1 at each reading. -/
def mem0 : Mem := ⟨1, 1, [], [], [], [], []⟩

/-- A record of `n` bytes. -/
def record (n : Nat) : List UInt8 := List.replicate n 0

/-- Runs `Write` after `Write`: the writer and system after a list of records, with
the pair returned by the last one; `none` when one panics. -/
def writeAll {σ : Type} (sys : Sys σ) :
    List (List UInt8) → (Int × Option String) × DefaultWriter × σ →
      Option ((Int × Option String) × DefaultWriter × σ)
  | [], r => some r
  | p :: ps, r =>
    match r.2.1.Write sys p r.2.2 with
    | none => none
    | some r1 => writeAll sys ps r1

/-- The constraints of the end-to-end scenario: `MaxSize = 100`, `History = 2`,
no schedule. -/
def scenario : DefaultWriterConstraints :=
  ⟨"logs/", "app-", "INFO", ⟨100, ⟨"", ""⟩, 2⟩⟩

/-- The writer of the scenario after `Init` in the empty directory. -/
def writer1 : DefaultWriter := ⟨scenario, ["app-1"], some 0, none, 0⟩

/-- The system in memory after that `Init`. -/
def mem1 : Mem := ⟨2, 1, [("logs/app-1", 0)], ["logs/app-1"], [], [], ["New log: file=%s"]⟩

/-- A writer holding two names whose files are gone, `History = 2`. -/
def ghostWriter : DefaultWriter := ⟨scenario, ["ghost-1", "ghost-2"], none, none, 0⟩

/-- The end-to-end scenario: `Init` in the empty directory, then the records
written one after the other. -/
def scenarioRun (ps : List (List UInt8)) :
    Option ((Int × Option String) × DefaultWriter × Mem) :=
  match DefaultWriter.new.Init (memSys none none) scenario mem0 with
  | .error _ => none
  | .ok (me, st) => writeAll (memSys none none) ps ((0, none), me, st)

/-- What `log` does with an accepted record `s` on the handle `h`, `r` being
its result from world `w`, `t` the trace handle and `pre` the prefix of the
record's severity. When the primary write succeeds and the two writers differ,
the calls made are the primary one and then the mirror one, on the trace
handle re-stamped with `pre`; when the writers are the same, the primary call
alone; when the primary write fails, the failed primary call alone, and no
handle has changed. -/
def Mirrored (me : DefaultLogger) (r : Option World) (h t : Nat) (pre s : String)
    (w : World) : Prop :=
  (w.fails w.calls.length = none → (w.loggers h).out ≠ (w.loggers t).out →
    ∃ w', r = some w' ∧
      newCalls w w' =
        [⟨h, (w.loggers h).out, (w.loggers h).pfx, (w.loggers h).flag, me.calldepth, s, true⟩,
         ⟨t, (w.loggers t).out, pre, (w.loggers t).flag, me.calldepth, s,
           (w.fails (w.calls.length + 1)).isNone⟩] ∧
      (w'.loggers t).pfx = pre) ∧
  (w.fails w.calls.length = none → (w.loggers h).out = (w.loggers t).out →
    ∃ w', r = some w' ∧
      newCalls w w' =
        [⟨h, (w.loggers h).out, (w.loggers h).pfx, (w.loggers h).flag, me.calldepth, s, true⟩] ∧
      w'.loggers = w.loggers) ∧
  (∀ err, w.fails w.calls.length = some err →
    ∃ w', r = some w' ∧
      newCalls w w' =
        [⟨h, (w.loggers h).out, (w.loggers h).pfx, (w.loggers h).flag, me.calldepth, s, false⟩] ∧
      w'.loggers = w.loggers)

/-- The order the spec gives the `level` constants (§3 and glossary): `TRACE` is a
bit outside the debug mask and below `INFO`, and `INFO < WARN < ERROR`. -/
@[reducible] def LevelPkg.Ordered (L : LevelPkg) : Prop :=
  L.TRACE ≠ 0 ∧ L.TRACE &&& L.DEBUG = 0 ∧ L.TRACE < L.INFO ∧ L.INFO < L.WARN ∧ L.WARN < L.ERROR

/-- A logger whose five handles are bound, to the addresses `t d i wn e`. -/
def DefaultLogger.bound (m : Nat) (scope : String) (cd : Int) (t d i wn e : Nat) :
    DefaultLogger :=
  ⟨m, scope, cd, some t, some d, some i, some wn, some e⟩

/-- A world with no logger allocated, no call made and writers that never fail. -/
def world0 : World := ⟨fun _ => ⟨"", 0, 0⟩, 0, fun _ => none, [], []⟩

/-- The logger `NewDefaultLogger(out, level.WARN, "S", DEFAULT_DEPTH)` on a writer
`out` (number 1) other than `os.Stdout`, with the constants `level32`. -/
def demoLogger : DefaultLogger := (NewDefaultLogger level32 1 level32.WARN "S" DEFAULT_DEPTH world0).1

/-- The world after that construction. -/
def demoWorld : World := (NewDefaultLogger level32 1 level32.WARN "S" DEFAULT_DEPTH world0).2

/-- The instant `now := time.Now()` that `rotate` reads before it creates the
file (line 130). -/
def DefaultWriter.firstNow {σ : Type} (sys : Sys σ) (me : DefaultWriter) (st : σ) : Int :=
  ((me.prune sys st).1.create sys (me.prune sys st).2).1.1

/-- The instant that `time.Until(t)` reads in `rotate` (line 159), once the file
is created and reported. -/
def DefaultWriter.secondNow {σ : Type} (sys : Sys σ) (me : DefaultWriter) (st : σ) : Int :=
  (sys.Now (sys.Debugf 0 "New log: file=%s"
    [me.constraints.Directory ++ ((me.prune sys st).1.create sys (me.prune sys st).2).1.2.1]
    ((me.prune sys st).1.create sys (me.prune sys st).2).2)).1

/-- An empty directory with the clock at instant `c`, advancing by 1 at each
reading. -/
def memAt (c : Nat) : Mem := ⟨c, 1, [], [], [], [], []⟩

/-- A writer with the schedule `daily` at `"08:00:00"`. -/
def dailyWriter : DefaultWriter :=
  ⟨⟨"logs/", "app-", "INFO", ⟨0, ⟨"daily", "08:00:00"⟩, 0⟩⟩, [], none, none, 0⟩

/-- The system after `Init` of the scenario, in which the next `OpenFile` is going to
fail and the ones after it succeed. -/
def mem1Deny : Mem := { mem1 with openFails := [true] }

/-- The schedule parameter is malformed for the system: the schedule is `daily`
and the time of day does not parse on any date, or it is `duration` and the
duration does not parse. -/
def Malformed {σ : Type} (sys : Sys σ) (c : Schedule) : Prop :=
  (c.Typ = SCHEDULE_DAILY ∧
    ∀ date, ∃ e, sys.ParseInLocation "2006-01-02 15:04:05" (date ++ c.Duration) = .error e) ∨
  (c.Typ = SCHEDULE_DURATION ∧ ∃ e, sys.ParseDuration c.Duration = .error e)

/-- Constraints with the schedule `duration` and the parameter `"soon"`. -/
def soonConstraints : DefaultWriterConstraints :=
  ⟨"logs/", "app-", "INFO", ⟨100, ⟨"duration", "soon"⟩, 2⟩⟩

/-- The scenario writer with 60 bytes in its file. -/
def stuckWriter : DefaultWriter := { writer1 with size := 60 }

/-- The rotation of `stuckWriter` that cannot create its file. -/
def afterDeny : Option String × DefaultWriter × Mem :=
  stuckWriter.rotate (memSys none none) mem1Deny

/-- A running writer with the constraints `soonConstraints`, 60 bytes in its file. -/
def soonWriter : DefaultWriter := ⟨soonConstraints, ["app-1"], some 0, none, 60⟩

/-! ## Lemmas on `log` and `logf` -/

theorem logf_eq_log (Sprintf : String → List String → String) (L : LevelPkg)
    (me : DefaultLogger) (logger : Option Nat) (n : Nat) (format : String)
    (args : List String) (w : World) :
    me.logf Sprintf L logger n format args w = me.log L logger n (Sprintf format args) w := by
  cases logger <;> rfl

theorem newCalls_self (w : World) : newCalls w w = [] := by
  simp [newCalls]

theorem wrote_self (h : Nat) (s : String) (w : World) : wrote h s w w = false := by
  simp [wrote, newCalls_self]

/-- With the trace handle bound, `log` on a bound handle returns, and its first
new call is the primary one. -/
theorem log_first_call (L : LevelPkg) (me : DefaultLogger) (h t n : Nat) (s : String)
    (w : World) (ht : me.trace = some t) :
    ∃ w' rest, me.log L (some h) n s w = some w' ∧
      newCalls w w' =
        ⟨h, (w.loggers h).out, (w.loggers h).pfx, (w.loggers h).flag, me.calldepth, s,
          (w.fails w.calls.length).isNone⟩ :: rest := by
  cases hf : w.fails w.calls.length with
  | some err =>
    refine ⟨Warnf "Failed to log: %s" [err] (Output h me.calldepth s w).2, [], ?_, ?_⟩
    · simp [DefaultLogger.log, Output, hf]
    · simp [Output, hf, Warnf, newCalls]
  | none =>
    by_cases hc : Writer h (Output h me.calldepth s w).2 ≠ Writer t (Output h me.calldepth s w).2
        ∧ (Level.Get me.level &&& L.TRACE) ≠ 0
    · refine ⟨(Output t me.calldepth s
          (SetPrefix t (getPrefix L n me.scope) (Output h me.calldepth s w).2)).2,
          [⟨t, (w.loggers t).out, getPrefix L n me.scope, (w.loggers t).flag, me.calldepth, s,
            (w.fails (w.calls.length + 1)).isNone⟩], ?_, ?_⟩
      · simp only [DefaultLogger.log, Output, hf, ht]
        rw [if_pos (by simpa [Output, hf] using hc)]
      · simp [Output, hf, newCalls, SetPrefix]
    · refine ⟨(Output h me.calldepth s w).2, [], ?_, ?_⟩
      · simp only [DefaultLogger.log, Output, hf, ht]
        rw [if_neg (by simpa [Output, hf] using hc)]
      · simp [Output, hf, newCalls]

theorem log_gated (L : LevelPkg) (me : DefaultLogger) (h t n : Nat) (s : String)
    (w : World) (ht : me.trace = some t) (gate : Prop) [Decidable gate] :
    Gated (if gate then me.log L (some h) n s w else some w) w h s gate := by
  by_cases hg : gate
  · obtain ⟨w', rest, h1, h2⟩ := log_first_call L me h t n s w ht
    refine ⟨w', by simp [hg, h1], ?_, fun hn => absurd hg hn⟩
    simp [wrote, h2, hg]
  · exact ⟨w, by simp [hg], by simp [wrote_self, hg], fun _ => rfl⟩

/-! ## The level gate -/

/-- C1: with all five handles bound, each of the ten logging calls returns; Trace,
Info, Warn and Error (plain and formatted) hand a record to their own handle
exactly when the mask intersects the severity bit, Debug and Debugf with
sub-level `n` exactly when `mask AND DEBUG <= DEBUG0 << n`; with the gate closed
the world (every handle with its prefix, the calls made, the reports) is
unchanged. -/
theorem gate_contract (Sprintf : String → List String → String) (L : LevelPkg) (m : Nat)
    (scope : String) (cd : Int) (t d i wn e : Nat) (w : World) (s format : String)
    (args : List String) (n : Nat) :
    Gated (DefaultLogger.Trace L ⟨m, scope, cd, some t, some d, some i, some wn, some e⟩ s w)
      w t s (m &&& L.TRACE ≠ 0) ∧
    Gated (DefaultLogger.Tracef Sprintf L ⟨m, scope, cd, some t, some d, some i, some wn, some e⟩
      format args w) w t (Sprintf format args) (m &&& L.TRACE ≠ 0) ∧
    Gated (DefaultLogger.Debug L ⟨m, scope, cd, some t, some d, some i, some wn, some e⟩ n s w)
      w d s (m &&& L.DEBUG ≤ (L.DEBUG0 <<< n) % 2 ^ L.bits) ∧
    Gated (DefaultLogger.Debugf Sprintf L ⟨m, scope, cd, some t, some d, some i, some wn, some e⟩
      n format args w) w d (Sprintf format args) (m &&& L.DEBUG ≤ (L.DEBUG0 <<< n) % 2 ^ L.bits) ∧
    Gated (DefaultLogger.Info L ⟨m, scope, cd, some t, some d, some i, some wn, some e⟩ s w)
      w i s (m &&& L.INFO ≠ 0) ∧
    Gated (DefaultLogger.Infof Sprintf L ⟨m, scope, cd, some t, some d, some i, some wn, some e⟩
      format args w) w i (Sprintf format args) (m &&& L.INFO ≠ 0) ∧
    Gated (DefaultLogger.Warn L ⟨m, scope, cd, some t, some d, some i, some wn, some e⟩ s w)
      w wn s (m &&& L.WARN ≠ 0) ∧
    Gated (DefaultLogger.Warnf Sprintf L ⟨m, scope, cd, some t, some d, some i, some wn, some e⟩
      format args w) w wn (Sprintf format args) (m &&& L.WARN ≠ 0) ∧
    Gated (DefaultLogger.Error L ⟨m, scope, cd, some t, some d, some i, some wn, some e⟩ s w)
      w e s (m &&& L.ERROR ≠ 0) ∧
    Gated (DefaultLogger.Errorf Sprintf L ⟨m, scope, cd, some t, some d, some i, some wn, some e⟩
      format args w) w e (Sprintf format args) (m &&& L.ERROR ≠ 0) := by
  refine ⟨?_, ?_, ?_, ?_, ?_, ?_, ?_, ?_, ?_, ?_⟩ <;>
    simp only [DefaultLogger.Trace, DefaultLogger.Tracef, DefaultLogger.Debug,
      DefaultLogger.Debugf, DefaultLogger.Info, DefaultLogger.Infof, DefaultLogger.Warn,
      DefaultLogger.Warnf, DefaultLogger.Error, DefaultLogger.Errorf, logf_eq_log, Level.Get,
      LevelPkg.debugN] <;>
    exact log_gated L _ _ t _ _ w rfl _

/-! ## `Write` -/

theorem wrap64_of_int64 (x : Int) (h1 : -(2 ^ 63) ≤ x) (h2 : x < 2 ^ 63) : wrap64 x = x := by
  unfold wrap64
  rw [Int.emod_eq_of_lt (by omega) (by omega)]
  omega

/-- C2: `Write` rotates first exactly when `MaxSize > 0` and the `int64` sum
`size + len(p)` reaches `MaxSize`; a failed rotation returns `(0, err)` and the
append is not made; otherwise `p` is appended to the current file, a success
returns `(n, nil)` with `size` increased by `n` (an `int64` addition, exact
within `int64`), an append failure returns the count and the error and leaves
`size` as it was; below the threshold or with `MaxSize <= 0` the append is made
on the writer and system as they were, with no rotation. -/
theorem Write_contract {σ : Type} (sys : Sys σ) (me : DefaultWriter) (p : List UInt8) (st : σ) :
    (me.constraints.Rotation.MaxSize > 0 ∧
        wrap64 (me.size + (p.length : Int)) ≥ me.constraints.Rotation.MaxSize →
      (∀ err me1 st1, me.rotate sys st = (some err, me1, st1) →
        me.Write sys p st =
          some ((0, some err), me1, sys.Errorf "Failed to rotate log: %s" [err] st1)) ∧
      (∀ me1 st1 f, me.rotate sys st = (none, me1, st1) → me1.fd = some f →
        (∀ n st2, sys.Write f p st1 = ((n, none), st2) →
          me.Write sys p st =
            some ((n, none), { me1 with size := wrap64 (me1.size + n) }, st2)) ∧
        (∀ n e st2, sys.Write f p st1 = ((n, some e), st2) →
          me.Write sys p st = some ((n, some e), me1, st2)))) ∧
    (me.constraints.Rotation.MaxSize ≤ 0 ∨
        wrap64 (me.size + (p.length : Int)) < me.constraints.Rotation.MaxSize →
      ∀ f, me.fd = some f →
        (∀ n st2, sys.Write f p st = ((n, none), st2) →
          me.Write sys p st = some ((n, none), { me with size := wrap64 (me.size + n) }, st2)) ∧
        (∀ n e st2, sys.Write f p st = ((n, some e), st2) →
          me.Write sys p st = some ((n, some e), me, st2))) ∧
    (∀ x : Int, -(2 ^ 63) ≤ x → x < 2 ^ 63 → wrap64 x = x) := by
  refine ⟨fun hc => ⟨?_, ?_⟩, fun hc f hf => ⟨?_, ?_⟩, wrap64_of_int64⟩
  · intro err me1 st1 hr
    simp only [DefaultWriter.Write, if_pos hc, hr]
  · intro me1 st1 f hr hf
    refine ⟨?_, ?_⟩
    · intro n st2 hw
      simp only [DefaultWriter.Write, if_pos hc, hr, hf, hw]
    · intro n e st2 hw
      simp only [DefaultWriter.Write, if_pos hc, hr, hf, hw]
  · intro n st2 hw
    have hn : ¬ (me.constraints.Rotation.MaxSize > 0 ∧
        wrap64 (me.size + (p.length : Int)) ≥ me.constraints.Rotation.MaxSize) := by omega
    simp only [DefaultWriter.Write, if_neg hn, hf, hw]
  · intro n e st2 hw
    have hn : ¬ (me.constraints.Rotation.MaxSize > 0 ∧
        wrap64 (me.size + (p.length : Int)) ≥ me.constraints.Rotation.MaxSize) := by omega
    simp only [DefaultWriter.Write, if_neg hn, hf, hw]

theorem Init_scenario :
    DefaultWriter.new.Init (memSys none none) scenario mem0 = .ok (writer1, mem1) := by
  rfl

/-- A 40-byte record written to the fresh file of the scenario: no rotation, the
count 40 is returned and the size counter becomes 40. -/
theorem Write_contract_witness :
    writer1.Write (memSys none none) (record 40) mem1 =
      some ((40, none), { writer1 with size := wrap64 (writer1.size + 40) },
        { mem1 with files := [("logs/app-1", 40)] }) :=
  ((Write_contract (memSys none none) writer1 (record 40) mem1).2.1
    (Or.inr (by decide)) 0 rfl).1 40 { mem1 with files := [("logs/app-1", 40)] } (by rfl)

/-! ## History -/

theorem removeHistory_fst {σ : Type} (sys : Sys σ) (directory : String) (K : Nat) :
    ∀ (files : List String) (st : σ),
      (removeHistory sys directory (K : Int) files st).1 = files.drop (files.length + 1 - K) := by
  intro files
  induction files with
  | nil => intro st; simp [removeHistory]
  | cons name files ih =>
    intro st
    unfold removeHistory
    by_cases h : ((name :: files).length : Int) ≥ (K : Int)
    · have h' : K ≤ files.length + 1 := by
        have : ((files.length + 1 : Nat) : Int) ≥ (K : Int) := by simpa using h
        exact_mod_cast this
      have hd : (name :: files).length + 1 - K = (files.length + 1 - K) + 1 := by
        simp only [List.length_cons]; omega
      rw [if_pos h, hd, List.drop_succ_cons]
      cases hr : sys.Remove (directory ++ name) st with
      | mk e st1 =>
        cases e with
        | none => simpa using ih st1
        | some err => simpa using ih _
    · have h' : files.length + 1 < K := by
        have : ¬ ((files.length + 1 : Nat) : Int) ≥ (K : Int) := by simpa using h
        have := not_le.mp this
        exact_mod_cast this
      have hd : (name :: files).length + 1 - K = 0 := by
        simp only [List.length_cons]; omega
      rw [if_neg h, hd, List.drop_zero]

theorem prune_fields {σ : Type} (sys : Sys σ) (me : DefaultWriter) (st : σ) :
    (me.prune sys st).1.constraints = me.constraints ∧ (me.prune sys st).1.fd = me.fd ∧
      (me.prune sys st).1.size = me.size ∧ (me.prune sys st).1.ticker = me.ticker := by
  unfold DefaultWriter.prune
  by_cases h : me.constraints.Rotation.History > 0 <;> simp [h]

theorem prune_files {σ : Type} (sys : Sys σ) (me : DefaultWriter) (st : σ) (K : Nat)
    (hK : 0 < K) (hH : me.constraints.Rotation.History = K) :
    (me.prune sys st).1.files = me.files.drop (me.files.length + 1 - K) := by
  have hpos : me.constraints.Rotation.History > 0 := by rw [hH]; exact_mod_cast hK
  unfold DefaultWriter.prune
  rw [if_pos hpos, hH]
  exact removeHistory_fst sys _ K _ _

theorem arm_fields {σ : Type} (sys : Sys σ) (me : DefaultWriter) (delay : Int) (st : σ) :
    (me.arm sys delay st).1 = none ∧ (me.arm sys delay st).2.1.constraints = me.constraints ∧
      (me.arm sys delay st).2.1.files = me.files ∧ (me.arm sys delay st).2.1.fd = me.fd ∧
      (me.arm sys delay st).2.1.size = me.size := by
  unfold DefaultWriter.arm
  split <;> simp

theorem schedule_fields {σ : Type} (sys : Sys σ) (me : DefaultWriter) (now : Int) (st : σ) :
    (me.schedule sys now st).2.1.constraints = me.constraints ∧
      (me.schedule sys now st).2.1.files = me.files ∧ (me.schedule sys now st).2.1.fd = me.fd ∧
      (me.schedule sys now st).2.1.size = me.size := by
  unfold DefaultWriter.schedule
  split
  · split
    · simp
    · exact (arm_fields sys me _ _).2
  · split
    · split
      · simp
      · exact (arm_fields sys me _ _).2
    · exact (arm_fields sys me _ _).2

/-- Unfolds `rotate` in terms of its stages. -/
theorem rotate_eq {σ : Type} (sys : Sys σ) (me : DefaultWriter) (st : σ) :
    me.rotate sys st =
      match ((me.prune sys st).1.create sys (me.prune sys st).2).1.2.2 with
      | .error err =>
        (some err, (me.prune sys st).1,
          sys.Errorf "Failed to create log: %s" [err]
            ((me.prune sys st).1.create sys (me.prune sys st).2).2)
      | .ok f =>
        DefaultWriter.schedule sys
          { (me.prune sys st).1 with
            files := (me.prune sys st).1.files ++
              [((me.prune sys st).1.create sys (me.prune sys st).2).1.2.1],
            fd := some f, size := 0, ticker := none }
          ((me.prune sys st).1.create sys (me.prune sys st).2).1.1
          (sys.Debugf 0 "New log: file=%s"
            [me.constraints.Directory ++
              ((me.prune sys st).1.create sys (me.prune sys st).2).1.2.1]
            ((me.prune sys st).1.create sys (me.prune sys st).2).2) := by
  unfold DefaultWriter.rotate
  rcases h : (me.prune sys st).1.create sys (me.prune sys st).2 with ⟨⟨now, name, r⟩, st2⟩
  cases r <;> simp [h]

/-- A rotation that returns no error has created its file. -/
theorem rotate_ok {σ : Type} (sys : Sys σ) (me : DefaultWriter) (st : σ)
    (h : (me.rotate sys st).1 = none) :
    ∃ f, ((me.prune sys st).1.create sys (me.prune sys st).2).1.2.2 = .ok f ∧
      (me.rotate sys st).2.1.files = (me.prune sys st).1.files ++
        [((me.prune sys st).1.create sys (me.prune sys st).2).1.2.1] ∧
      (me.rotate sys st).2.1.fd = some f ∧ (me.rotate sys st).2.1.size = 0 ∧
      (me.rotate sys st).2.1.constraints = me.constraints := by
  rw [rotate_eq] at h ⊢
  cases hr : ((me.prune sys st).1.create sys (me.prune sys st).2).1.2.2 with
  | error err => rw [hr] at h; simp at h
  | ok f =>
    refine ⟨f, rfl, ?_⟩
    simp only []
    obtain ⟨h1, h2, h3, h4⟩ := schedule_fields sys
      { (me.prune sys st).1 with
        files := (me.prune sys st).1.files ++
          [((me.prune sys st).1.create sys (me.prune sys st).2).1.2.1],
        fd := some f, size := 0, ticker := none }
      ((me.prune sys st).1.create sys (me.prune sys st).2).1.1
      (sys.Debugf 0 "New log: file=%s"
        [me.constraints.Directory ++
          ((me.prune sys st).1.create sys (me.prune sys st).2).1.2.1]
        ((me.prune sys st).1.create sys (me.prune sys st).2).2)
    exact ⟨h2, h3, h4, h1.trans (prune_fields sys me st).1⟩

theorem rotate_ok_files {σ : Type} (sys : Sys σ) (me : DefaultWriter) (st : σ) (K : Nat)
    (hK : 0 < K) (hH : me.constraints.Rotation.History = K)
    (h : (me.rotate sys st).1 = none) :
    (me.rotate sys st).2.1.files = me.files.drop (me.files.length + 1 - K) ++
        [((me.prune sys st).1.create sys (me.prune sys st).2).1.2.1] ∧
      (me.rotate sys st).2.1.constraints = me.constraints := by
  obtain ⟨f, _, h2, _, _, h5⟩ := rotate_ok sys me st h
  rw [prune_files sys me st K hK hH] at h2
  exact ⟨h2, h5⟩

theorem rotateN_length {σ : Type} (sys : Sys σ) (K : Nat) (hK : 0 < K) :
    ∀ (n : Nat) (me : DefaultWriter) (st : σ), me.constraints.Rotation.History = K →
      (rotateN sys n me st).1 = none →
      min (me.files.length + n) K ≤ (rotateN sys n me st).2.1.files.length ∧
        (0 < n → (rotateN sys n me st).2.1.files.length ≤ K) := by
  intro n
  induction n with
  | zero => intro me st _ _; simp [rotateN]
  | succ n ih =>
    intro me st hH h
    unfold rotateN at h ⊢
    rcases hr : me.rotate sys st with ⟨e, me1, st1⟩
    cases e with
    | some err => rw [hr] at h; simp at h
    | none =>
      rw [hr] at h
      simp only [] at h ⊢
      have hok : (me.rotate sys st).1 = none := by rw [hr]
      obtain ⟨hf, hc⟩ := rotate_ok_files sys me st K hK hH hok
      rw [hr] at hf hc
      simp only [] at hf hc
      have hlen : me1.files.length = min me.files.length (K - 1) + 1 := by
        rw [hf]; simp only [List.length_append, List.length_drop, List.length_singleton]; omega
      obtain ⟨i1, i2⟩ := ih me1 st1 (by rw [hc]; exact hH) h
      refine ⟨by omega, fun _ => ?_⟩
      rcases Nat.eq_zero_or_pos n with h0 | h0
      · subst h0; simp only [rotateN]; omega
      · exact i2 h0

/-- C3: with `History = K > 0`, a rotation that returns no error leaves in
`files` the last `min(len, K-1)` old names in their order followed by the new
name, at most `K` names in all; `K+5` rotations in a row that all succeed leave
exactly `K` names, `K-1` older ones and the current one; and the outcome of
`os.Remove` plays no part: with no schedule configured the rotation succeeds
as soon as the new file is created. -/
theorem history_bound {σ : Type} (sys : Sys σ) (me : DefaultWriter) (st : σ) (K : Nat)
    (hK : 0 < K) (hH : me.constraints.Rotation.History = K) :
    ((me.rotate sys st).1 = none →
      (me.rotate sys st).2.1.files =
          me.files.drop (me.files.length - min me.files.length (K - 1)) ++
            [((me.prune sys st).1.create sys (me.prune sys st).2).1.2.1] ∧
        (me.rotate sys st).2.1.files.length ≤ K) ∧
    ((rotateN sys (K + 5) me st).1 = none →
      (rotateN sys (K + 5) me st).2.1.files.length = K ∧
        ∃ older current, (rotateN sys (K + 5) me st).2.1.files = older ++ [current] ∧
          older.length = K - 1) ∧
    (me.constraints.Rotation.Schedule.Typ ≠ SCHEDULE_DAILY →
      me.constraints.Rotation.Schedule.Typ ≠ SCHEDULE_DURATION →
      ∀ f, ((me.prune sys st).1.create sys (me.prune sys st).2).1.2.2 = .ok f →
        (me.rotate sys st).1 = none) := by
  refine ⟨fun h => ?_, fun h => ?_, fun h1 h2 f hf => ?_⟩
  · obtain ⟨hf, _⟩ := rotate_ok_files sys me st K hK hH h
    have hd : me.files.length + 1 - K = me.files.length - min me.files.length (K - 1) := by
      omega
    rw [hd] at hf
    refine ⟨hf, ?_⟩
    rw [hf]
    simp only [List.length_append, List.length_drop, List.length_singleton]
    omega
  · obtain ⟨i1, i2⟩ := rotateN_length sys K hK (K + 5) me st hH h
    have hlen : (rotateN sys (K + 5) me st).2.1.files.length = K := by
      have := i2 (by omega)
      omega
    have hne : (rotateN sys (K + 5) me st).2.1.files ≠ [] := by
      intro h0; rw [h0] at hlen; simp at hlen; omega
    refine ⟨hlen, (rotateN sys (K + 5) me st).2.1.files.dropLast,
      (rotateN sys (K + 5) me st).2.1.files.getLast hne, ?_, ?_⟩
    · exact (List.dropLast_append_getLast hne).symm
    · rw [List.length_dropLast, hlen]
  · rw [rotate_eq, hf]
    simp only [DefaultWriter.schedule]
    rw [if_neg (by simpa [prune_fields] using h1), if_neg (by simpa [prune_fields] using h2)]
    exact (arm_fields sys _ 0 _).1

/-- The rotation of a writer whose oldest file is already gone: `os.Remove`
fails, the failure is reported, and the rotation goes on to create the new
file. -/
theorem history_bound_witness :
    (ghostWriter.rotate (memSys none none) mem0).1 = none ∧
      (ghostWriter.rotate (memSys none none) mem0).2.1.files = ["ghost-2", "app-1"] ∧
      (ghostWriter.rotate (memSys none none) mem0).2.2.reports =
        ["Failed to remove log: %s", "New log: file=%s"] :=
  ⟨(history_bound (memSys none none) ghostWriter mem0 2 (by decide) rfl).2.2
      (by decide) (by decide) 0 rfl,
    ((history_bound (memSys none none) ghostWriter mem0 2 (by decide) rfl).1 rfl).1,
    rfl⟩

/-! ## The end-to-end scenario -/

/-- In the system in memory `Write` looks at the length of the record only. -/
theorem Write_memSys_length (today interval : Option Int) (me : DefaultWriter) (st : Mem)
    (p q : List UInt8) (h : p.length = q.length) :
    me.Write (memSys today interval) p st = me.Write (memSys today interval) q st := by
  unfold DefaultWriter.Write
  simp only [memSys, h]

theorem writeAll_memSys_length (today interval : Option Int) :
    ∀ (ps qs : List (List UInt8)), ps.map List.length = qs.map List.length →
      ∀ r, writeAll (memSys today interval) ps r = writeAll (memSys today interval) qs r := by
  intro ps
  induction ps with
  | nil =>
    intro qs h r
    cases qs with
    | nil => rfl
    | cons q qs => simp at h
  | cons p ps ih =>
    intro qs h r
    cases qs with
    | nil => simp at h
    | cons q qs =>
      simp only [List.map_cons, List.cons.injEq] at h
      unfold writeAll
      rw [Write_memSys_length today interval r.2.1 r.2.2 p q h.1]
      cases r.2.1.Write (memSys today interval) q r.2.2 with
      | none => rfl
      | some r1 => exact ih qs h.2 r1

/-- C4, as stated, fails: after the four 40-byte records the size counter of the
current file is 80, not 40, and the first file is still in the directory. -/
theorem scenario_counterexample :
    (scenarioRun [record 40, record 40, record 40, record 40]).map
        (fun r => (r.2.1.size, r.2.1.files, r.2.2.files)) =
      some (80, ["app-1", "app-2"], [("logs/app-1", 80), ("logs/app-2", 80)]) ∧
    (80 : Int) ≠ 40 :=
  ⟨rfl, by decide⟩

/-- C4, amended: in the empty directory with `MaxSize = 100`, `History = 2` and no
schedule, four records of 40 bytes leave two files of 80 bytes each; the only
rotation is the one of the third `Write`, nothing is evicted, and the size
counter of the current file is 80. -/
theorem scenario_amended (p1 p2 p3 p4 : List UInt8) (h1 : p1.length = 40)
    (h2 : p2.length = 40) (h3 : p3.length = 40) (h4 : p4.length = 40) :
    scenarioRun [p1, p2, p3, p4] =
      some ((40, none), ⟨scenario, ["app-1", "app-2"], some 1, none, 80⟩,
        ⟨3, 1, [("logs/app-1", 80), ("logs/app-2", 80)], ["logs/app-1", "logs/app-2"], [0], [],
          ["New log: file=%s", "New log: file=%s"]⟩) := by
  unfold scenarioRun
  rw [Init_scenario]
  simp only []
  rw [writeAll_memSys_length none none [p1, p2, p3, p4]
    [record 40, record 40, record 40, record 40] (by simp [h1, h2, h3, h4, record])]
  rfl

theorem scenario_amended_witness :
    scenarioRun [record 40, record 40, record 40, record 40] =
      some ((40, none), ⟨scenario, ["app-1", "app-2"], some 1, none, 80⟩,
        ⟨3, 1, [("logs/app-1", 80), ("logs/app-2", 80)], ["logs/app-1", "logs/app-2"], [0], [],
          ["New log: file=%s", "New log: file=%s"]⟩) :=
  scenario_amended (record 40) (record 40) (record 40) (record 40) (by decide) (by decide)
    (by decide) (by decide)

/-! ## Trace mirroring -/

theorem log_mirrored (L : LevelPkg) (me : DefaultLogger) (h t n : Nat) (s : String) (w : World)
    (ht : me.trace = some t) (hT : me.level &&& L.TRACE ≠ 0) :
    Mirrored me (me.log L (some h) n s w) h t (getPrefix L n me.scope) s w := by
  refine ⟨fun hf hw => ?_, fun hf hw => ?_, fun err hf => ?_⟩
  · refine ⟨(Output t me.calldepth s
        (SetPrefix t (getPrefix L n me.scope) (Output h me.calldepth s w).2)).2, ?_, ?_, ?_⟩
    · simp only [DefaultLogger.log, Output, hf, ht]
      rw [if_pos (by simpa [Writer, Level.Get] using And.intro hw hT)]
    · simp [Output, hf, newCalls, SetPrefix]
    · simp [Output, SetPrefix]
  · refine ⟨(Output h me.calldepth s w).2, ?_, ?_, ?_⟩
    · simp only [DefaultLogger.log, Output, hf, ht]
      rw [if_neg (by simp [Writer, hw])]
    · simp [Output, hf, newCalls]
    · simp [Output]
  · refine ⟨Warnf "Failed to log: %s" [err] (Output h me.calldepth s w).2, ?_, ?_, ?_⟩
    · simp [DefaultLogger.log, Output, hf]
    · simp [Output, hf, Warnf, newCalls]
    · simp [Output, Warnf]

theorem getPrefix_ERROR (L : LevelPkg) (scope : String) :
    getPrefix L L.ERROR scope = "[ERROR] " ++ scope ++ " " := by
  unfold getPrefix
  rw [if_pos (le_refl _)]

theorem getPrefix_WARN (L : LevelPkg) (scope : String) (h : L.WARN < L.ERROR) :
    getPrefix L L.WARN scope = "[WARN ] " ++ scope ++ " " := by
  unfold getPrefix
  rw [if_neg (by omega), if_pos (le_refl _)]

theorem getPrefix_INFO (L : LevelPkg) (scope : String) (h1 : L.INFO < L.WARN)
    (h2 : L.WARN < L.ERROR) :
    getPrefix L L.INFO scope = "[INFO ] " ++ scope ++ " " := by
  unfold getPrefix
  rw [if_neg (by omega), if_neg (by omega), if_pos (le_refl _)]

/-- A level value below `INFO` that meets the debug mask is tagged `[DEBUG]`. -/
theorem getPrefix_DEBUG (L : LevelPkg) (scope : String) (x : Nat) (h1 : L.INFO < L.WARN)
    (h2 : L.WARN < L.ERROR) (hx : x < L.INFO) (hd : x &&& L.DEBUG ≠ 0) :
    getPrefix L x scope = "[DEBUG] " ++ scope ++ " " := by
  unfold getPrefix
  rw [if_neg (by omega), if_neg (by omega), if_neg (by omega), if_pos hd]

theorem getPrefix_TRACE (L : LevelPkg) (scope : String) (h : L.Ordered) :
    getPrefix L L.TRACE scope = "[TRACE] " ++ scope ++ " " := by
  obtain ⟨h0, hd, h1, h2, h3⟩ := h
  unfold getPrefix
  rw [if_neg (by omega), if_neg (by omega), if_neg (by omega), if_neg (by simp [hd]),
    if_pos (by simpa using h0)]

/-- A sub-level at or beyond the width of `Level` shifts `DEBUG0` out: the level
value is 0 and its prefix is the bare scope. -/
theorem getPrefix_debugN_out (L : LevelPkg) (scope : String) (n : Nat) (h : L.Ordered)
    (hn : L.bits ≤ n) :
    L.debugN n = 0 ∧ getPrefix L (L.debugN n) scope = scope ++ " " := by
  obtain ⟨h0, hd, h1, h2, h3⟩ := h
  have hz : L.debugN n = 0 := by
    unfold LevelPkg.debugN
    rw [Nat.shiftLeft_eq]
    exact Nat.mod_eq_zero_of_dvd (Dvd.dvd.mul_left (Nat.pow_dvd_pow 2 hn) _)
  refine ⟨hz, ?_⟩
  rw [hz]
  unfold getPrefix
  rw [if_neg (by omega), if_neg (by omega), if_neg (by omega), if_neg (by simp),
    if_neg (by simp)]

theorem warn_ne_trace (scope : String) :
    "[WARN ] " ++ scope ++ " " ≠ "[TRACE] " ++ scope ++ " " := by
  intro h
  have := congrArg String.data h
  simp at this

/-- C5, as stated, fails: on the logger built by `NewDefaultLogger` with the mask
`WARN`, `Debug(40, "x")` is accepted and written to the debug handle (address
1) with `"[DEBUG] S "`, and its mirror on the trace handle (address 0) carries
the bare prefix `"S "`, not the prefix of its severity: `DEBUG0 << 40` is 0. -/
theorem debug_mirror_counterexample :
    ((DefaultLogger.bound (level32.WARN ||| level32.TRACE) "S" 3 0 1 2 3 4).Debug level32 40 "x"
        demoWorld).map (fun w => w.calls.map fun c => (c.handle, c.pfx, c.s)) =
      some [(1, "[DEBUG] S ", "x"), (0, "S ", "x")] ∧
    "S " ≠ "[DEBUG] S " := by
  refine ⟨rfl, by decide⟩

/-- C5, amended: for the `level` constants in their order, a logger with TRACE in
its mask and its handles bound, every accepted record `s` goes through
`log`/`logf` as `Mirrored` says: primary write accepted and primary writer
other than the trace writer, one call on the primary handle and one call with
the same `s` on the trace handle, whose prefix has been set to
`"[INFO ] <scope> "` for Info, `"[WARN ] <scope> "` (not the `[TRACE]` one) for
Warn, `"[ERROR] <scope> "` for Error and `"[DEBUG] <scope> "` for Debug with a
sub-level whose value `DEBUG0 << n` is below `INFO` and meets the debug mask;
same writer (as always for Trace), the primary call alone; primary write
refused, no call after it and no prefix changed. -/
theorem trace_mirroring (Sprintf : String → List String → String) (L : LevelPkg) (m : Nat)
    (scope : String) (cd : Int) (t d i wn e : Nat) (w : World) (s format : String)
    (args : List String) (n : Nat) (hO : L.Ordered) (hT : m &&& L.TRACE ≠ 0) :
    Mirrored (.bound m scope cd t d i wn e)
      ((DefaultLogger.bound m scope cd t d i wn e).Trace L s w)
      t t ("[TRACE] " ++ scope ++ " ") s w ∧
    Mirrored (.bound m scope cd t d i wn e)
      ((DefaultLogger.bound m scope cd t d i wn e).Tracef Sprintf L format args w)
      t t ("[TRACE] " ++ scope ++ " ") (Sprintf format args) w ∧
    (m &&& L.DEBUG ≤ (L.DEBUG0 <<< n) % 2 ^ L.bits →
      (L.DEBUG0 <<< n) % 2 ^ L.bits < L.INFO →
      ((L.DEBUG0 <<< n) % 2 ^ L.bits) &&& L.DEBUG ≠ 0 →
      Mirrored (.bound m scope cd t d i wn e)
        ((DefaultLogger.bound m scope cd t d i wn e).Debug L n s w)
        d t ("[DEBUG] " ++ scope ++ " ") s w ∧
      Mirrored (.bound m scope cd t d i wn e)
        ((DefaultLogger.bound m scope cd t d i wn e).Debugf Sprintf L n format args w)
        d t ("[DEBUG] " ++ scope ++ " ") (Sprintf format args) w) ∧
    (m &&& L.INFO ≠ 0 →
      Mirrored (.bound m scope cd t d i wn e)
        ((DefaultLogger.bound m scope cd t d i wn e).Info L s w)
        i t ("[INFO ] " ++ scope ++ " ") s w ∧
      Mirrored (.bound m scope cd t d i wn e)
        ((DefaultLogger.bound m scope cd t d i wn e).Infof Sprintf L format args w)
        i t ("[INFO ] " ++ scope ++ " ") (Sprintf format args) w) ∧
    (m &&& L.WARN ≠ 0 →
      Mirrored (.bound m scope cd t d i wn e)
        ((DefaultLogger.bound m scope cd t d i wn e).Warn L s w)
        wn t ("[WARN ] " ++ scope ++ " ") s w ∧
      Mirrored (.bound m scope cd t d i wn e)
        ((DefaultLogger.bound m scope cd t d i wn e).Warnf Sprintf L format args w)
        wn t ("[WARN ] " ++ scope ++ " ") (Sprintf format args) w) ∧
    (m &&& L.ERROR ≠ 0 →
      Mirrored (.bound m scope cd t d i wn e)
        ((DefaultLogger.bound m scope cd t d i wn e).Error L s w)
        e t ("[ERROR] " ++ scope ++ " ") s w ∧
      Mirrored (.bound m scope cd t d i wn e)
        ((DefaultLogger.bound m scope cd t d i wn e).Errorf Sprintf L format args w)
        e t ("[ERROR] " ++ scope ++ " ") (Sprintf format args) w) ∧
    "[WARN ] " ++ scope ++ " " ≠ "[TRACE] " ++ scope ++ " " := by
  have key : ∀ (h k : Nat) (x : String),
      Mirrored (.bound m scope cd t d i wn e)
        ((DefaultLogger.bound m scope cd t d i wn e).log L (some h) k x w) h t
        (getPrefix L k scope) x w :=
    fun h k x => log_mirrored L _ h t k x w rfl hT
  have pT := getPrefix_TRACE L scope hO
  have pI := getPrefix_INFO L scope hO.2.2.2.1 hO.2.2.2.2
  have pW := getPrefix_WARN L scope hO.2.2.2.2
  have pE := getPrefix_ERROR L scope
  refine ⟨?_, ?_, fun hg hx hd => ⟨?_, ?_⟩, fun hg => ⟨?_, ?_⟩, fun hg => ⟨?_, ?_⟩,
    fun hg => ⟨?_, ?_⟩, warn_ne_trace scope⟩
  · simp only [DefaultLogger.Trace, Level.Get, DefaultLogger.bound, if_pos hT]
    rw [← pT]; exact key _ _ _
  · simp only [DefaultLogger.Tracef, logf_eq_log, Level.Get, DefaultLogger.bound, if_pos hT]
    rw [← pT]; exact key _ _ _
  · simp only [DefaultLogger.Debug, Level.Get, LevelPkg.debugN, DefaultLogger.bound, if_pos hg]
    rw [← getPrefix_DEBUG L scope _ hO.2.2.2.1 hO.2.2.2.2 hx hd]; exact key _ _ _
  · simp only [DefaultLogger.Debugf, logf_eq_log, Level.Get, LevelPkg.debugN,
      DefaultLogger.bound, if_pos hg]
    rw [← getPrefix_DEBUG L scope _ hO.2.2.2.1 hO.2.2.2.2 hx hd]; exact key _ _ _
  · simp only [DefaultLogger.Info, Level.Get, DefaultLogger.bound, if_pos hg]
    rw [← pI]; exact key _ _ _
  · simp only [DefaultLogger.Infof, logf_eq_log, Level.Get, DefaultLogger.bound, if_pos hg]
    rw [← pI]; exact key _ _ _
  · simp only [DefaultLogger.Warn, Level.Get, DefaultLogger.bound, if_pos hg]
    rw [← pW]; exact key _ _ _
  · simp only [DefaultLogger.Warnf, logf_eq_log, Level.Get, DefaultLogger.bound, if_pos hg]
    rw [← pW]; exact key _ _ _
  · simp only [DefaultLogger.Error, Level.Get, DefaultLogger.bound, if_pos hg]
    rw [← pE]; exact key _ _ _
  · simp only [DefaultLogger.Errorf, logf_eq_log, Level.Get, DefaultLogger.bound, if_pos hg]
    rw [← pE]; exact key _ _ _

/-- Witness: `Warn("x")` and `Debug(0, "x")` on the logger built by
`NewDefaultLogger`: the constants `level32` are in order, TRACE is in the mask,
both records are accepted and `DEBUG0 << 0` is a debug bit below `INFO`. -/
theorem trace_mirroring_witness :
    Mirrored (.bound (level32.WARN ||| level32.TRACE) "S" 3 0 1 2 3 4)
      ((DefaultLogger.bound (level32.WARN ||| level32.TRACE) "S" 3 0 1 2 3 4).Warn level32 "x"
        demoWorld) 3 0 ("[WARN ] " ++ "S" ++ " ") "x" demoWorld ∧
    Mirrored (.bound (level32.WARN ||| level32.TRACE) "S" 3 0 1 2 3 4)
      ((DefaultLogger.bound (level32.WARN ||| level32.TRACE) "S" 3 0 1 2 3 4).Debug level32 0
        "x" demoWorld) 1 0 ("[DEBUG] " ++ "S" ++ " ") "x" demoWorld :=
  ⟨((trace_mirroring (fun f _ => f) level32 (level32.WARN ||| level32.TRACE) "S" 3 0 1 2 3 4
      demoWorld "x" "" [] 0 (by decide) (by decide)).2.2.2.2.1 (by decide)).1,
    ((trace_mirroring (fun f _ => f) level32 (level32.WARN ||| level32.TRACE) "S" 3 0 1 2 3 4
      demoWorld "x" "" [] 0 (by decide) (by decide)).2.2.1 (by decide) (by decide)
      (by decide)).1⟩

/-! ## The factory and the prefixes -/

/-- C9, as stated, fails: a factory holding the mask `INFO` hands out a logger
whose mask is `INFO|TRACE`. -/
theorem NewLogger_level_counterexample :
    ((DefaultLoggerFactory.Init ⟨0, 0⟩ 1 level32.INFO).NewLogger String.toUpper level32 "core"
        world0).1.level = level32.INFO ||| level32.TRACE ∧
    ((DefaultLoggerFactory.Init ⟨0, 0⟩ 1 level32.INFO).NewLogger String.toUpper level32 "core"
        world0).1.level ≠ level32.INFO := by
  constructor
  · rfl
  · decide

/-- C9, amended: `NewLogger(scope)` of a factory built with sink `out` and mask `m`
returns a logger with the uppercased scope, the call depth `DEFAULT_DEPTH = 3`,
the mask `m OR TRACE`, and five fresh handles: debug, info, warn and error
write to `out` with the prefix of their severity, trace writes to `os.Stdout`. -/
theorem NewLogger_spec (ToUpper : String → String) (L : LevelPkg) (f0 : DefaultLoggerFactory)
    (out m : Nat) (scope : String) (w : World) :
    ((f0.Init out m).NewLogger ToUpper L scope w).1 =
      DefaultLogger.bound (m ||| L.TRACE) (ToUpper scope) DEFAULT_DEPTH w.next (w.next + 1)
        (w.next + 2) (w.next + 3) (w.next + 4) ∧
    DEFAULT_DEPTH = 3 ∧
    ((f0.Init out m).NewLogger ToUpper L scope w).2.loggers w.next =
      ⟨getPrefix L L.TRACE (ToUpper scope), osStdout, stdFlags⟩ ∧
    ((f0.Init out m).NewLogger ToUpper L scope w).2.loggers (w.next + 1) =
      ⟨getPrefix L L.DEBUG (ToUpper scope), out, stdFlags⟩ ∧
    ((f0.Init out m).NewLogger ToUpper L scope w).2.loggers (w.next + 2) =
      ⟨getPrefix L L.INFO (ToUpper scope), out, stdFlags⟩ ∧
    ((f0.Init out m).NewLogger ToUpper L scope w).2.loggers (w.next + 3) =
      ⟨getPrefix L L.WARN (ToUpper scope), out, stdFlags⟩ ∧
    ((f0.Init out m).NewLogger ToUpper L scope w).2.loggers (w.next + 4) =
      ⟨getPrefix L L.ERROR (ToUpper scope), out, stdFlags⟩ := by
  refine ⟨?_, rfl, ?_, ?_, ?_, ?_, ?_⟩
  · simp [DefaultLoggerFactory.NewLogger, DefaultLoggerFactory.Init, NewDefaultLogger, logNew,
      DefaultLogger.bound, DefaultLogger.new, DefaultLogger.Init, DefaultLogger.WithTrace,
      DefaultLogger.WithDebug, DefaultLogger.WithInfo, DefaultLogger.WithWarn,
      DefaultLogger.WithError]
  · simp only [DefaultLoggerFactory.NewLogger, DefaultLoggerFactory.Init, NewDefaultLogger,
      logNew, Function.update, eq_rec_constant, dite_eq_ite]
    rw [if_neg (by omega), if_neg (by omega), if_neg (by omega), if_neg (by omega)]
    simp
  all_goals
    simp [DefaultLoggerFactory.NewLogger, DefaultLoggerFactory.Init, NewDefaultLogger, logNew,
      Function.update]

theorem demoLogger_eq :
    demoLogger = .bound (level32.WARN ||| level32.TRACE) "S" 3 0 1 2 3 4 := by
  rfl

theorem error_ne_trace (scope : String) :
    "[ERROR] " ++ scope ++ " " ≠ "[TRACE] " ++ scope ++ " " := by
  intro h
  have := congrArg String.data h
  simp at this

theorem getPrefix_WARN_ne_trace (L : LevelPkg) (scope : String) :
    getPrefix L L.WARN scope ≠ "[TRACE] " ++ scope ++ " " := by
  unfold getPrefix
  by_cases h : L.WARN ≥ L.ERROR
  · rw [if_pos h]; exact error_ne_trace scope
  · rw [if_neg h, if_pos (le_refl _)]; exact warn_ne_trace scope

/-- C10 fails on the code, whatever the `level` constants are: for a logger with
WARN and TRACE in its mask whose warn writer is not the trace writer, and
writers that accept every line, `Warn(a)` then `Trace(b)` both return, and the
one call `Trace(b)` makes, on the trace handle, carries the prefix of WARN
left by the mirror of the Warn record, which is not `"[TRACE] <scope> "`. -/
theorem Trace_after_Warn (L : LevelPkg) (m : Nat) (scope : String) (cd : Int)
    (t d i wn e : Nat) (w : World) (a b : String) (hW : m &&& L.WARN ≠ 0)
    (hT : m &&& L.TRACE ≠ 0) (hout : (w.loggers wn).out ≠ (w.loggers t).out)
    (hok : ∀ k, w.fails k = none) :
    ∃ w1 w2, (DefaultLogger.bound m scope cd t d i wn e).Warn L a w = some w1 ∧
      (DefaultLogger.bound m scope cd t d i wn e).Trace L b w1 = some w2 ∧
      newCalls w1 w2 =
        [⟨t, (w.loggers t).out, getPrefix L L.WARN scope, (w.loggers t).flag, cd, b, true⟩] ∧
      getPrefix L L.WARN scope ≠ "[TRACE] " ++ scope ++ " " := by
  refine ⟨(Output t cd a (SetPrefix t (getPrefix L L.WARN scope) (Output wn cd a w).2)).2,
    (Output t cd b
      (Output t cd a (SetPrefix t (getPrefix L L.WARN scope) (Output wn cd a w).2)).2).2,
    ?_, ?_, ?_, getPrefix_WARN_ne_trace L scope⟩
  · simp only [DefaultLogger.Warn, DefaultLogger.bound, Level.Get, if_pos hW, DefaultLogger.log,
      Output, hok]
    rw [if_pos (by simpa [Writer, Level.Get] using And.intro hout hT)]
  · simp only [DefaultLogger.Trace, DefaultLogger.bound, Level.Get, if_pos hT, DefaultLogger.log,
      Output, hok, SetPrefix]
    rw [if_neg (by simp [Writer])]
  · simp [Output, SetPrefix, newCalls, hok]

/-- C10 at its failing input: the logger built by `NewDefaultLogger` over a writer
other than `os.Stdout`, with the mask `WARN`, then `Warn("a")` and
`Trace("b")`. -/
theorem Trace_after_Warn_witness :
    ∃ w1 w2, (DefaultLogger.bound (level32.WARN ||| level32.TRACE) "S" 3 0 1 2 3 4).Warn
        level32 "a" demoWorld = some w1 ∧
      (DefaultLogger.bound (level32.WARN ||| level32.TRACE) "S" 3 0 1 2 3 4).Trace
        level32 "b" w1 = some w2 ∧
      newCalls w1 w2 =
        [⟨0, (demoWorld.loggers 0).out, getPrefix level32 level32.WARN "S",
          (demoWorld.loggers 0).flag, 3, "b", true⟩] ∧
      getPrefix level32 level32.WARN "S" ≠ "[TRACE] " ++ "S" ++ " " :=
  Trace_after_Warn level32 (level32.WARN ||| level32.TRACE) "S" 3 0 1 2 3 4 demoWorld "a" "b"
    (by decide) (by decide) (by decide) (fun _ => rfl)

/-- The same run, evaluated: three calls are made, as handle, prefix and message;
the last one is the Trace record on the trace handle (address 0), and its
prefix is `"[WARN ] S "`. -/
theorem Trace_after_Warn_run :
    ((demoLogger.Warn level32 "a" demoWorld).bind (demoLogger.Trace level32 "b")).map
        (fun w => w.calls.map fun c => (c.handle, c.pfx, c.s)) =
      some [(3, "[WARN ] S ", "a"), (0, "[WARN ] S ", "a"), (0, "[WARN ] S ", "b")] := by
  rfl

/-! ## The schedule -/

theorem create_now {σ : Type} (sys : Sys σ) (me : DefaultWriter) (st : σ) :
    (me.create sys st).1.1 = (sys.Now st).1 := by
  rfl

/-- C6, as stated, fails: with the time of day parsed to instant 1000 and a clock
that advances by 1 at each reading, a rotation begun at 999 (not after `t0`)
arms no ticker although `t0 - now` is 1, and a rotation begun at 1001 (after
`t0`) arms the ticker with `t0 + 24h - 1002`, not `t0 + 24h - 1001`. -/
theorem daily_delay_counterexample :
    (dailyWriter.rotate (memSys (some 1000) none) (memAt 999)).1 = none ∧
    (dailyWriter.rotate (memSys (some 1000) none) (memAt 999)).2.1.ticker = none ∧
    (0 : Int) < 1000 - 999 ∧
    (dailyWriter.rotate (memSys (some 1000) none) (memAt 1001)).2.1.ticker =
      some (1000 + day - 1002) ∧
    (1000 + day - 1002 : Int) ≠ 1000 + day - 1001 := by
  refine ⟨rfl, rfl, by decide, rfl, by decide⟩

/-- C6, amended: with the schedule `daily`, the new file created and the time of
day parsed on the date of the first clock reading `now` to `t0`, `rotate`
succeeds and arms the ticker with the delay `t.Sub(now')`, where `t` is
`t0 + 24h` when `now` is after `t0` and `t0` otherwise, and `now'` is the
second clock reading, the one of `time.Until` (no ticker when that delay is
not positive); `t.Sub(now')` is the plain difference for `t0` within two days
of `now'`; when `t0 < now <= now' < t0 + 24h` the delay is `t0 + 24h - now'`,
positive and at most 24 hours; and when the two readings are the same instant
the delay is the one computed from `now` alone. -/
theorem daily_delay {σ : Type} (sys : Sys σ) (me : DefaultWriter) (st : σ) (t0 : Int)
    (f : Nat) (hT : me.constraints.Rotation.Schedule.Typ = SCHEDULE_DAILY)
    (hopen : ((me.prune sys st).1.create sys (me.prune sys st).2).1.2.2 = .ok f)
    (hparse : sys.ParseInLocation "2006-01-02 15:04:05"
        (sys.Format (me.firstNow sys st) "2006-01-02 " ++
          me.constraints.Rotation.Schedule.Duration) = .ok t0) :
    (me.rotate sys st).1 = none ∧
    (me.rotate sys st).2.1.ticker =
      (if timeSub (if me.firstNow sys st > t0 then t0 + day else t0) (me.secondNow sys st) > 0
        then some (timeSub (if me.firstNow sys st > t0 then t0 + day else t0)
          (me.secondNow sys st))
        else none) ∧
    (|t0 - me.secondNow sys st| ≤ 2 * day →
      timeSub (if me.firstNow sys st > t0 then t0 + day else t0) (me.secondNow sys st) =
        (if me.firstNow sys st > t0 then t0 + day else t0) - me.secondNow sys st) ∧
    (t0 < me.firstNow sys st → me.firstNow sys st ≤ me.secondNow sys st →
      me.secondNow sys st < t0 + day →
      (me.rotate sys st).2.1.ticker = some (t0 + day - me.secondNow sys st) ∧
        0 < t0 + day - me.secondNow sys st ∧ t0 + day - me.secondNow sys st ≤ day) ∧
    (me.secondNow sys st = me.firstNow sys st →
      (me.rotate sys st).2.1.ticker =
        (if timeSub (if me.firstNow sys st > t0 then t0 + day else t0) (me.firstNow sys st) > 0
          then some (timeSub (if me.firstNow sys st > t0 then t0 + day else t0)
            (me.firstNow sys st))
          else none)) := by
  have hrot : me.rotate sys st =
      DefaultWriter.arm sys
        { (me.prune sys st).1 with
          files := (me.prune sys st).1.files ++
            [((me.prune sys st).1.create sys (me.prune sys st).2).1.2.1],
          fd := some f, size := 0, ticker := none }
        (timeSub (if me.firstNow sys st > t0 then t0 + day else t0) (me.secondNow sys st))
        (sys.Now (sys.Debugf 0 "New log: file=%s"
          [me.constraints.Directory ++
            ((me.prune sys st).1.create sys (me.prune sys st).2).1.2.1]
          ((me.prune sys st).1.create sys (me.prune sys st).2).2)).2 := by
    rw [rotate_eq, hopen]
    simp only [DefaultWriter.firstNow] at hparse
    simp only [DefaultWriter.schedule, (prune_fields sys me st).1, if_pos hT, hparse,
      DefaultWriter.firstNow, DefaultWriter.secondNow]
  have harm : ∀ (w : DefaultWriter) (d : Int) (s : σ), w.ticker = none →
      (w.arm sys d s).2.1.ticker = if d > 0 then some d else none := by
    intro w d s hw
    unfold DefaultWriter.arm
    split <;> simp [hw]
  have htick : (me.rotate sys st).2.1.ticker =
      (if timeSub (if me.firstNow sys st > t0 then t0 + day else t0) (me.secondNow sys st) > 0
        then some (timeSub (if me.firstNow sys st > t0 then t0 + day else t0)
          (me.secondNow sys st))
        else none) := by
    rw [hrot]
    exact harm _ _ _ rfl
  have hd : day = 86400000000000 := by decide
  refine ⟨?_, htick, fun hnear => ?_, fun h1 h2 h3 => ?_, fun heq => ?_⟩
  · rw [hrot]; exact (arm_fields sys _ _ _).1
  · have hb := abs_le.mp hnear
    unfold timeSub
    by_cases hlt : me.firstNow sys st > t0
    · rw [if_pos hlt, if_neg (by omega), if_neg (by omega)]
    · rw [if_neg hlt, if_neg (by omega), if_neg (by omega)]
  · have hsub : timeSub (if me.firstNow sys st > t0 then t0 + day else t0)
        (me.secondNow sys st) = t0 + day - me.secondNow sys st := by
      rw [if_pos h1]
      unfold timeSub
      rw [if_neg (by omega), if_neg (by omega)]
    rw [htick, hsub, if_pos (by omega)]
    exact ⟨rfl, by omega, by omega⟩
  · rw [htick, heq]

/-- A rotation whose clock reads 1001 and then 1002, with the time of day parsed
to instant 1000 of the same day: the ticker is armed for instant 1000 of the
next day, counted from the second reading. -/
theorem daily_delay_witness :
    (dailyWriter.rotate (memSys (some 1000) none) (memAt 1001)).2.1.ticker =
      some (1000 + day - 1002) :=
  ((daily_delay (memSys (some 1000) none) dailyWriter (memAt 1001) 1000 0 rfl rfl
    rfl).2.2.2.1 (by decide) (by decide) (by decide)).1

/-! ## Failures of `rotate` -/

theorem rotate_create_error {σ : Type} (sys : Sys σ) (me : DefaultWriter) (st : σ) (err : String)
    (h : ((me.prune sys st).1.create sys (me.prune sys st).2).1.2.2 = .error err) :
    me.rotate sys st =
      (some err, (me.prune sys st).1,
        sys.Errorf "Failed to create log: %s" [err]
          ((me.prune sys st).1.create sys (me.prune sys st).2).2) := by
  rw [rotate_eq, h]

/-- C7, as stated, fails: the second `Write` of 60 bytes fails on a rotation that
cannot create its file, and the third one, with nothing done in between,
rotates again, gets its file and succeeds. -/
theorem self_heal_counterexample :
    (writeAll (memSys none none) [record 60, record 60] ((0, none), writer1, mem1Deny)).map
        (fun r => r.1) = some (0, some "permission denied") ∧
    (writeAll (memSys none none) [record 60, record 60, record 60]
        ((0, none), writer1, mem1Deny)).map (fun r => (r.1, r.2.1.files, r.2.1.fd)) =
      some ((60, none), ["app-1", "app-3"], some 1) :=
  ⟨rfl, rfl⟩

/-- C7, amended: when `rotate` fails because the new file cannot be created it
returns that error and leaves `fd` (the file it has just closed), `size` and
the ticker as they were; nothing keeps a later `Write` from rotating: a `Write`
that meets the size condition calls `rotate` again, returns `(0, err)` if that
rotation fails and the result of the append to the new file if it succeeds; a
`Write` below the threshold, or with `MaxSize <= 0`, makes no attempt and
returns what the append to the old handle returns. -/
theorem rotate_failure {σ : Type} (sys : Sys σ) (me : DefaultWriter) (st : σ) (err : String)
    (h : ((me.prune sys st).1.create sys (me.prune sys st).2).1.2.2 = .error err) :
    (me.rotate sys st).1 = some err ∧
    (me.rotate sys st).2.1.fd = me.fd ∧ (me.rotate sys st).2.1.size = me.size ∧
    (me.rotate sys st).2.1.ticker = me.ticker ∧
    (me.rotate sys st).2.1.constraints = me.constraints ∧
    ∀ (p : List UInt8) (st1 : σ),
      (me.constraints.Rotation.MaxSize > 0 ∧
          wrap64 (me.size + (p.length : Int)) ≥ me.constraints.Rotation.MaxSize →
        (∀ e me2 st2, (me.rotate sys st).2.1.rotate sys st1 = (some e, me2, st2) →
          ((me.rotate sys st).2.1.Write sys p st1).map (fun r => r.1) = some (0, some e)) ∧
        (∀ me2 st2 f r st3, (me.rotate sys st).2.1.rotate sys st1 = (none, me2, st2) →
          me2.fd = some f → sys.Write f p st2 = (r, st3) →
          ((me.rotate sys st).2.1.Write sys p st1).map (fun r => r.1) = some r)) ∧
      (me.constraints.Rotation.MaxSize ≤ 0 ∨
          wrap64 (me.size + (p.length : Int)) < me.constraints.Rotation.MaxSize →
        ∀ f r st2, me.fd = some f → sys.Write f p st1 = (r, st2) →
          ((me.rotate sys st).2.1.Write sys p st1).map (fun r => r.1) = some r) := by
  have hr := rotate_create_error sys me st err h
  obtain ⟨hc, hfd, hsz, htk⟩ := prune_fields sys me st
  rw [hr]
  refine ⟨rfl, hfd, hsz, htk, hc, fun p st1 => ⟨fun hcond => ⟨?_, ?_⟩, fun hcond f r st2 hf hw => ?_⟩⟩
  · intro e me2 st2 h2
    simp only [DefaultWriter.Write, hc, hsz, if_pos hcond, h2, Option.map_some']
  · intro me2 st2 f r st3 h2 hf hw
    rcases r with ⟨n, e⟩
    cases e <;> simp only [DefaultWriter.Write, hc, hsz, if_pos hcond, h2, hf, hw, Option.map_some']
  · have hn : ¬ (me.constraints.Rotation.MaxSize > 0 ∧
        wrap64 (me.size + (p.length : Int)) ≥ me.constraints.Rotation.MaxSize) := by omega
    rcases r with ⟨n, e⟩
    cases e <;>
      simp only [DefaultWriter.Write, hc, hsz, hfd, if_neg hn, hf, hw, Option.map_some']

/-- A rotation of the scenario writer, 60 bytes in its file, that cannot create
its file, and the `Write` of 60 bytes that follows: it rotates again and
returns `(60, nil)`. -/
theorem rotate_failure_witness :
    afterDeny.1 = some "permission denied" ∧
    Option.map Prod.fst (afterDeny.2.1.Write (memSys none none) (record 60) afterDeny.2.2) =
      some (60, none) :=
  ⟨(rotate_failure (memSys none none) stuckWriter mem1Deny "permission denied" rfl).1,
    (((rotate_failure (memSys none none) stuckWriter mem1Deny "permission denied"
      rfl).2.2.2.2.2 (record 60) afterDeny.2.2).1 (by decide)).2
      (afterDeny.2.1.rotate (memSys none none) afterDeny.2.2).2.1
      (afterDeny.2.1.rotate (memSys none none) afterDeny.2.2).2.2 1 (60, none)
      ((memSys none none).Write 1 (record 60)
        (afterDeny.2.1.rotate (memSys none none) afterDeny.2.2).2.2).2 rfl rfl rfl⟩

theorem schedule_malformed {σ : Type} (sys : Sys σ) (w : DefaultWriter) (now : Int) (st : σ)
    (hm : Malformed sys w.constraints.Rotation.Schedule) :
    ∃ e st1, w.schedule sys now st = (some e, w, st1) := by
  unfold DefaultWriter.schedule
  rcases hm with ⟨hT, hp⟩ | ⟨hT, e, hp⟩
  · obtain ⟨e, he⟩ := hp (sys.Format now "2006-01-02 ")
    rw [if_pos hT, he]
    exact ⟨e, _, rfl⟩
  · have hne : w.constraints.Rotation.Schedule.Typ ≠ SCHEDULE_DAILY := by
      rw [hT]; decide
    rw [if_neg hne, if_pos hT, hp]
    exact ⟨e, _, rfl⟩

theorem readdir_constraints {σ : Type} (sys : Sys σ) (me : DefaultWriter) (st : σ) :
    (me.readdir sys st).2.1.constraints = me.constraints := by
  unfold DefaultWriter.readdir
  split <;> rfl

theorem rotate_malformed {σ : Type} (sys : Sys σ) (me : DefaultWriter) (st : σ)
    (hm : Malformed sys me.constraints.Rotation.Schedule) :
    ∃ e, (me.rotate sys st).1 = some e := by
  rw [rotate_eq]
  cases hr : ((me.prune sys st).1.create sys (me.prune sys st).2).1.2.2 with
  | error err => exact ⟨err, rfl⟩
  | ok f =>
    simp only []
    obtain ⟨e, st1, he⟩ := schedule_malformed sys
      { (me.prune sys st).1 with
        files := (me.prune sys st).1.files ++
          [((me.prune sys st).1.create sys (me.prune sys st).2).1.2.1],
        fd := some f, size := 0, ticker := none }
      ((me.prune sys st).1.create sys (me.prune sys st).2).1.1
      (sys.Debugf 0 "New log: file=%s"
        [me.constraints.Directory ++
          ((me.prune sys st).1.create sys (me.prune sys st).2).1.2.1]
        ((me.prune sys st).1.create sys (me.prune sys st).2).2)
      (by simpa [(prune_fields sys me st).1] using hm)
    exact ⟨e, by rw [he]⟩

/-- C8, as stated, fails: with the schedule `duration` and a parameter that does
not parse, `Init` panics with the parse error, and a rotation of a running
writer returns the parse error with the new file `app-2` already in `files`,
installed as `fd`, and `size` reset to 0. -/
theorem parse_failure_counterexample :
    DefaultWriter.new.Init (memSys none none) soonConstraints mem0 =
      .error "time: invalid duration" ∧
    (soonWriter.rotate (memSys none none) mem1).1 = some "time: invalid duration" ∧
    (soonWriter.rotate (memSys none none) mem1).2.1 =
      ⟨soonConstraints, ["app-1", "app-2"], some 1, none, 0⟩ :=
  ⟨rfl, rfl, rfl⟩

/-- C8, amended: a malformed schedule parameter is looked at by `rotate` only, once
the new file is created: that rotation returns an error with the new name
already appended to `files`, the new file installed as `fd`, `size` at 0 and
no ticker; and since `Init` makes the first rotation, every construction with
such constraints fails. -/
theorem schedule_parse_failure {σ : Type} (sys : Sys σ) (c : DefaultWriterConstraints)
    (hm : Malformed sys c.Rotation.Schedule) :
    (∀ (me : DefaultWriter) (st : σ) (f : Nat), me.constraints = c →
      ((me.prune sys st).1.create sys (me.prune sys st).2).1.2.2 = .ok f →
      (∃ e, (me.rotate sys st).1 = some e) ∧
      (me.rotate sys st).2.1.files = (me.prune sys st).1.files ++
        [((me.prune sys st).1.create sys (me.prune sys st).2).1.2.1] ∧
      (me.rotate sys st).2.1.fd = some f ∧ (me.rotate sys st).2.1.size = 0 ∧
      (me.rotate sys st).2.1.ticker = none) ∧
    (∀ (me0 : DefaultWriter) (st : σ), ∃ e, me0.Init sys c st = .error e) := by
  refine ⟨fun me st f hc hf => ⟨rotate_malformed sys me st (by rw [hc]; exact hm), ?_⟩,
    fun me0 st => ?_⟩
  · rw [rotate_eq, hf]
    simp only []
    obtain ⟨e, st1, he⟩ := schedule_malformed sys
      { (me.prune sys st).1 with
        files := (me.prune sys st).1.files ++
          [((me.prune sys st).1.create sys (me.prune sys st).2).1.2.1],
        fd := some f, size := 0, ticker := none }
      ((me.prune sys st).1.create sys (me.prune sys st).2).1.1
      (sys.Debugf 0 "New log: file=%s"
        [me.constraints.Directory ++
          ((me.prune sys st).1.create sys (me.prune sys st).2).1.2.1]
        ((me.prune sys st).1.create sys (me.prune sys st).2).2)
      (by simpa [(prune_fields sys me st).1, hc] using hm)
    rw [he]
    exact ⟨rfl, rfl, rfl, rfl⟩
  · unfold DefaultWriter.Init
    rcases hmk : sys.MkdirAll c.Directory st with ⟨e, st1⟩
    cases e with
    | some err => exact ⟨err, rfl⟩
    | none =>
      simp only []
      rcases hrd : DefaultWriter.readdir sys { me0 with constraints := c } st1 with ⟨e, me1, st2⟩
      cases e with
      | some err => exact ⟨err, rfl⟩
      | none =>
        simp only []
        have hc1 : me1.constraints = c := by
          have := readdir_constraints sys { me0 with constraints := c } st1
          rw [hrd] at this
          exact this
        obtain ⟨e, he⟩ := rotate_malformed sys me1 st2 (by rw [hc1]; exact hm)
        rcases hro : me1.rotate sys st2 with ⟨e', me2, st3⟩
        rw [hro] at he
        simp only [] at he
        subst he
        exact ⟨e, rfl⟩

/-- The constraints with `duration` and `"soon"` in the system in memory, where no
duration parses: the rotation of the running writer fails after installing the
new file. -/
theorem schedule_parse_failure_witness :
    (∃ e, (soonWriter.rotate (memSys none none) mem1).1 = some e) ∧
    (soonWriter.rotate (memSys none none) mem1).2.1.files = ["app-1"] ++ ["app-2"] ∧
    (soonWriter.rotate (memSys none none) mem1).2.1.fd = some 1 ∧
    (soonWriter.rotate (memSys none none) mem1).2.1.size = 0 ∧
    (soonWriter.rotate (memSys none none) mem1).2.1.ticker = none :=
  (schedule_parse_failure (memSys none none) soonConstraints
    (Or.inr ⟨rfl, "time: invalid duration", rfl⟩)).1 soonWriter mem1 1 rfl rfl

end Log
